import Mathlib

/-!
Shallow embedding of the file-caching service
(`ch374n/threedy-file-downloader`): the file-retrieval handler
(`getFileHandler`), response shaping (`writeFileResponse`), not-found
classification (`isNotFoundError`), the health handler (`healthHandler`),
the Redis cache client operations (`RedisCache.Get` / `RedisCache.Set`),
and the R2 storage client's `ObjectExists`.

Bytes are modelled as `List Nat`; backend behaviour for a single request is
passed in explicitly (the reply the redis client produces for the one
`Get`, the result of the one origin `GetObject`, and the request context's
deadline state at the point where the handler inspects it).
-/

/-- File content bytes (`[]byte` in the source). -/
abbrev Bytes := List Nat

/-- Go `filepath.Ext`: the suffix beginning at the final dot in the final
slash-separated element of the path; empty when there is no dot.
`extFromRev` scans the reversed character list: it stops at a path
separator, and keeps collecting until the first dot seen from the right. -/
def extFromRev : List Char → List Char
  | [] => []
  | c :: rest =>
    if c = '/' then []
    else if c = '.' then [c]
    else
      match extFromRev rest with
      | [] => []
      | e => c :: e

/-- Go `filepath.Ext` on a string (see `extFromRev`). -/
def goExt (s : String) : String :=
  String.mk (extFromRev s.toList.reverse).reverse

/-- The Go standard library's builtin extension-to-MIME table
(`mime.builtinTypesLower`), as consulted by `mime.TypeByExtension`. -/
def mimeOf : String → Option String
  | ".avif" => some "image/avif"
  | ".css" => some "text/css; charset=utf-8"
  | ".gif" => some "image/gif"
  | ".htm" => some "text/html; charset=utf-8"
  | ".html" => some "text/html; charset=utf-8"
  | ".jpeg" => some "image/jpeg"
  | ".jpg" => some "image/jpeg"
  | ".js" => some "text/javascript; charset=utf-8"
  | ".json" => some "application/json"
  | ".mjs" => some "text/javascript; charset=utf-8"
  | ".pdf" => some "application/pdf"
  | ".png" => some "image/png"
  | ".svg" => some "image/svg+xml"
  | ".wasm" => some "application/wasm"
  | ".webp" => some "image/webp"
  | ".xml" => some "text/xml; charset=utf-8"
  | _ => none

/-- ASCII lower-casing of one character, as Go's `mime` package applies to
an extension before its second, case-insensitive lookup. -/
def asciiLower (c : Char) : Char :=
  if 'A' ≤ c ∧ c ≤ 'Z' then Char.ofNat (c.toNat + 32) else c

/-- ASCII lower-casing of a string. -/
def lowerStr (s : String) : String :=
  String.mk (s.toList.map asciiLower)

/-- Go `mime.TypeByExtension`: case-sensitive lookup in the builtin table,
then case-insensitive (ASCII-lowercased) lookup; empty string when the
extension is unknown. -/
def typeByExtension (ext : String) : String :=
  match mimeOf ext with
  | some t => t
  | none =>
    match mimeOf (lowerStr ext) with
    | some t => t
    | none => ""

/-- An HTTP response produced by the handlers: either a 200 file response
(written by `writeFileResponse`, carrying content type, the
Content-Disposition header value, and the body bytes) or a JSON envelope
response (written by `writeJSON`, carrying the status code and the
`success`/`message` fields of the envelope). -/
inductive Resp where
  | file (contentType : String) (dispositionHeader : String) (body : Bytes)
  | json (status : Nat) (success : Bool) (message : String)
deriving Repr, DecidableEq

/-- The HTTP status code of a response: `writeFileResponse` always writes
`http.StatusOK` (200); `writeJSON` writes the status it is given. -/
def Resp.statusCode : Resp → Nat
  | .file _ _ _ => 200
  | .json s _ _ => s

/-- The body of a file response, `none` for a JSON envelope response. -/
def Resp.fileBody : Resp → Option Bytes
  | .file _ _ b => some b
  | .json _ _ _ => none

/-- The Content-Disposition header of a response (only file responses set
one). -/
def Resp.dispositionOf : Resp → Option String
  | .file _ d _ => some d
  | .json _ _ _ => none

/-- The Content-Type header of a response; `writeJSON` always sets
`application/json`. -/
def Resp.contentTypeOf : Resp → String
  | .file ct _ _ => ct
  | .json _ _ _ => "application/json"

/-- `writeFileResponse` (`cmd/server/main.go`): resolves the content type
from the filename's extension via `mime.TypeByExtension(filepath.Ext(..))`
with fallback `application/octet-stream`, sets
`Content-Disposition: inline; filename="<name>"` by plain string
concatenation, writes status 200 and the bytes. -/
def writeFileResponse (filename : String) (data : Bytes) : Resp :=
  let ct0 := typeByExtension (goExt filename)
  let ct := if ct0 = "" then "application/octet-stream" else ct0
  Resp.file ct ("inline; filename=\"" ++ filename ++ "\"") data

/-- The reply the redis client produces for one `Get` call: a value, the
`redis.Nil` sentinel (key absent), or an error reply. -/
inductive RedisReply where
  | val (b : Bytes)
  | nilReply
  | errReply (msg : String)
deriving Repr, DecidableEq

/-- `RedisCache.Get` (`internal/cache/redis.go`): returns the Go triple
`(data, found, err)` — `redis.Nil` is a miss `(nil, false, nil)`, any
other error yields `(nil, false, wrapped err)`, and otherwise the value
is a hit `(data, true, nil)`. -/
def redisCacheGet : RedisReply → Option Bytes × Bool × Option String
  | .val b => (some b, true, none)
  | .nilReply => (none, false, none)
  | .errReply m => (none, false, some ("redis get error: " ++ m))

/-- A redis store: the key-value state of the cache backend (TTL
abstracted away). -/
abbrev Store := String → Option Bytes

/-- The reply a live, error-free redis backend with store contents `store`
produces for `Get key`. -/
def redisReplyOf (store : Store) (key : String) : RedisReply :=
  match store key with
  | some b => RedisReply.val b
  | none => RedisReply.nilReply

/-- The state effect of `RedisCache.Set` (`internal/cache/redis.go`) on an
error-free redis backend: `SET key data` with the configured TTL; the
store then maps `key` to `data`. -/
def redisSetEffect (store : Store) (key : String) (data : Bytes) : Store :=
  fun k => if k = key then some data else store k

/-- The result of one origin `R2Client.GetObject` call: the object's bytes
or an error (carrying the Go error's message text). -/
inductive OriginResult where
  | ok (data : Bytes)
  | err (msg : String)
deriving Repr, DecidableEq

/-- `R2Client.GetObject` (`internal/storage/r2.go`) over an abstract
bucket state: a present key yields its bytes; an absent key yields the
wrapped S3 `NoSuchKey` error, `fmt.Errorf("failed to get object %s: %w",
key, err)`. -/
def getObjectOf (bucket : Store) (key : String) : OriginResult :=
  match bucket key with
  | some b => OriginResult.ok b
  | none => OriginResult.err ("failed to get object " ++ key ++ ": NoSuchKey")

/-- `subOccurs pat s`: Go `strings.Contains` on character lists — `pat`
occurs as a contiguous substring of `s`. -/
def subOccurs (pat : List Char) : List Char → Bool
  | [] => pat.isEmpty
  | c :: rest => pat.isPrefixOf (c :: rest) || subOccurs pat rest

/-- Go `strings.Contains s pat`. -/
def strContains (s pat : String) : Bool :=
  subOccurs pat.toList s.toList

/-- `isNotFoundError` (`cmd/server/main.go`): an origin error is
classified not-found when its message contains the substring `NoSuchKey`
or `not found`. -/
def isNotFoundError (msg : String) : Bool :=
  strContains msg "NoSuchKey" || strContains msg "not found"

/-- The per-request behaviour of the two backends as `getFileHandler`
observes it: `cache = none` models `fileCache == nil` (no cache
configured); otherwise the reply the redis client gives for this
request's single `Get`. `ctxDeadlineExceeded` is whether
`ctx.Err() == context.DeadlineExceeded` holds at the point where the
handler inspects it after an origin error. -/
structure Env where
  cache : Option RedisReply
  origin : OriginResult
  ctxDeadlineExceeded : Bool

/-- What one run of `getFileHandler` produced: the response written, which
backends were contacted, whether a cache `Get` error was logged, and the
background cache-population `Set` the handler spawned (key and bytes),
if any. The spawned `Set` is recorded, not executed: the goroutine runs
detached from the request. -/
structure HandlerOut where
  response : Resp
  cacheCalled : Bool
  cacheErrorLogged : Bool
  originCalled : Bool
  bgCacheSet : Option (String × Bytes)
deriving Repr, DecidableEq

/-- The origin-fetch half of `getFileHandler` (`cmd/server/main.go`,
Step 2 onward): on success, write the file response and (when a cache is
configured) spawn the background `Set`; on error, classify — context
deadline exceeded → 504 `Request timeout`; `isNotFoundError` → 404
`File not found`; otherwise 500 `Failed to retrieve file`. -/
def originStep (env : Env) (filename : String)
    (cacheCalled cacheErrorLogged : Bool) : HandlerOut :=
  match env.origin with
  | OriginResult.ok data =>
    { response := writeFileResponse filename data
      cacheCalled := cacheCalled
      cacheErrorLogged := cacheErrorLogged
      originCalled := true
      bgCacheSet := if env.cache.isSome then some (filename, data) else none }
  | OriginResult.err msg =>
    { response :=
        if env.ctxDeadlineExceeded then Resp.json 504 false "Request timeout"
        else if isNotFoundError msg then Resp.json 404 false "File not found"
        else Resp.json 500 false "Failed to retrieve file"
      cacheCalled := cacheCalled
      cacheErrorLogged := cacheErrorLogged
      originCalled := true
      bgCacheSet := none }

/-- `getFileHandler` (`cmd/server/main.go`): empty filename → 400
`filename is required` before any backend call; else, when a cache is
configured, `fileCache.Get` — an error is logged only, a found value is
served directly with `writeFileResponse` (origin never called), a miss
falls through; then the origin fetch and classification of `originStep`. -/
def getFileHandler (env : Env) (filename : String) : HandlerOut :=
  if filename = "" then
    { response := Resp.json 400 false "filename is required"
      cacheCalled := false
      cacheErrorLogged := false
      originCalled := false
      bgCacheSet := none }
  else
    match env.cache with
    | some reply =>
      match redisCacheGet reply with
      | (data, found, errOpt) =>
        if found then
          { response := writeFileResponse filename (data.getD [])
            cacheCalled := true
            cacheErrorLogged := errOpt.isSome
            originCalled := false
            bgCacheSet := none }
        else
          originStep env filename true errOpt.isSome
    | none => originStep env filename false false

/-- The effect of the detached cache-population goroutine spawned by
`getFileHandler` on the redis store: `fileCache.Set(bgCtx, filename,
data)` under its own background context — on error the failure is only
logged and the store is unchanged; on success the store maps the key to
the data. -/
def backgroundPopulate (setErr : Option String) (store : Store)
    (key : String) (data : Bytes) : Store :=
  match setErr with
  | some _ => store
  | none => redisSetEffect store key data

/-- One full request against an error-free redis store `store` (when
`cacheConfigured`) and the given origin behaviour, followed by the
completion of the background population goroutine (whose `Set` fails
with `setErr` when `some`): returns the handler's output and the redis
store after the background work finished. -/
def processRequest (store : Store) (cacheConfigured : Bool)
    (origin : OriginResult) (dead : Bool) (setErr : Option String)
    (filename : String) : HandlerOut × Store :=
  let env : Env :=
    { cache := if cacheConfigured then some (redisReplyOf store filename) else none
      origin := origin
      ctxDeadlineExceeded := dead }
  let out := getFileHandler env filename
  match out.bgCacheSet with
  | some (k, d) => (out, backgroundPopulate setErr store k d)
  | none => (out, store)

/-- The result of one `HeadObject` call made by `ObjectExists`. -/
inductive HeadResult where
  | ok
  | err (msg : String)
deriving Repr, DecidableEq

/-- `ObjectExists` (`internal/storage/r2.go`): returns the Go pair
`(exists, err)`; every `HeadObject` error — of any kind — yields
`(false, nil)`, and success yields `(true, nil)`. -/
def ObjectExists : HeadResult → Bool × Option String
  | HeadResult.ok => (true, none)
  | HeadResult.err _ => (false, none)

/-- The backend state the health handler probes: whether a cache is
configured, the error (if any) of `fileCache.Ping`, and the error (if
any) of `fileStorage.HealthCheck`. -/
structure HealthEnv where
  cacheConfigured : Bool
  cachePingErr : Option String
  originErr : Option String

/-- What `healthHandler` produced: HTTP status, the envelope's `success`,
and the `status` / `redis` / `r2` fields of its `data` map. -/
structure HealthOut where
  httpStatus : Nat
  success : Bool
  statusField : String
  redisField : String
  r2Field : String
deriving Repr, DecidableEq

/-- `healthHandler` (the metrics-enabled server `main.go`): the `redis`
field is `disabled` with no cache, else `healthy` or
`unhealthy: <err>` from `Ping`; the R2 `HealthCheck` alone decides the
overall outcome — on failure 503, `success=false`, `status=unhealthy`;
on success 200, `success=true`, `status=healthy`. -/
def healthHandler (e : HealthEnv) : HealthOut :=
  let redisField :=
    if e.cacheConfigured then
      match e.cachePingErr with
      | some m => "unhealthy: " ++ m
      | none => "healthy"
    else "disabled"
  match e.originErr with
  | some m =>
    { httpStatus := 503
      success := false
      statusField := "unhealthy"
      redisField := redisField
      r2Field := "unhealthy: " ++ m }
  | none =>
    { httpStatus := 200
      success := true
      statusField := "healthy"
      redisField := redisField
      r2Field := "healthy" }

example : (writeFileResponse "document.pdf" []).contentTypeOf = "application/pdf" := by decide
example : (writeFileResponse "page.html" []).contentTypeOf = "text/html; charset=utf-8" := by decide
example : (writeFileResponse "file.unknownext123" []).contentTypeOf = "application/octet-stream" := by decide
example : goExt "dir/file" = "" := by decide
example : goExt "a.b/c" = "" := by decide
example : goExt "file." = "." := by decide
example : goExt "x.TXT" = ".TXT" := by decide

/-! ## Helper lemmas -/

/-- No entry of the builtin MIME table is empty or the octet-stream
fallback. -/
theorem mimeOf_ne (e t : String) (h : mimeOf e = some t) :
    t ≠ "" ∧ t ≠ "application/octet-stream" := by
  unfold mimeOf at h
  split at h <;> simp_all <;> subst h <;> exact ⟨by decide, by decide⟩

/-- `mime.TypeByExtension` never itself returns the octet-stream
fallback: that string only arises from `writeFileResponse`'s fallback
branch. -/
theorem typeByExtension_ne_octet (e : String) :
    typeByExtension e ≠ "application/octet-stream" := by
  unfold typeByExtension
  cases h1 : mimeOf e with
  | some t => exact (mimeOf_ne e t h1).2
  | none =>
    cases h2 : mimeOf (lowerStr e) with
    | some t => exact (mimeOf_ne (lowerStr e) t h2).2
    | none => simp

/-- Every response of `getFileHandler` is either a JSON envelope or a
file response produced by `writeFileResponse` on the requested name. -/
theorem handler_resp_cases (env : Env) (fn : String) :
    (∃ s b m, (getFileHandler env fn).response = Resp.json s b m) ∨
    (∃ d, (getFileHandler env fn).response = writeFileResponse fn d) := by
  unfold getFileHandler
  by_cases hfn : fn = ""
  · simp [hfn]
  · rw [if_neg hfn]
    have hstep : ∀ c l,
        (∃ s b m, (originStep env fn c l).response = Resp.json s b m) ∨
        (∃ d, (originStep env fn c l).response = writeFileResponse fn d) := by
      intro c l
      unfold originStep
      cases env.origin with
      | ok data => exact Or.inr ⟨data, rfl⟩
      | err msg =>
        refine Or.inl ?_
        by_cases hd : env.ctxDeadlineExceeded <;>
          by_cases hn : isNotFoundError msg <;> simp [hd, hn]
    cases hc : env.cache with
    | none => exact hstep false false
    | some reply =>
      cases reply with
      | val b => exact Or.inr ⟨b, by simp [redisCacheGet]⟩
      | nilReply => simpa [redisCacheGet] using hstep true false
      | errReply m => simpa [redisCacheGet] using hstep true true


/-! ## Claim theorems -/

/-- C1: for every non-empty filename whose bytes are present in the cache,
`getFileHandler` returns HTTP 200 with body exactly the cached bytes
(via `writeFileResponse`), and the origin store is never contacted —
the cache lookup short-circuits before the origin fetch, whatever the
origin's behaviour would have been. -/
theorem c1_cache_hit_short_circuits (b : Bytes) (origin : OriginResult)
    (dead : Bool) (fn : String) (hfn : fn ≠ "") :
    (getFileHandler ⟨some (RedisReply.val b), origin, dead⟩ fn).response
      = writeFileResponse fn b ∧
    (getFileHandler ⟨some (RedisReply.val b), origin, dead⟩ fn).response.statusCode = 200 ∧
    (getFileHandler ⟨some (RedisReply.val b), origin, dead⟩ fn).response.fileBody = some b ∧
    (getFileHandler ⟨some (RedisReply.val b), origin, dead⟩ fn).originCalled = false := by
  simp [getFileHandler, hfn, redisCacheGet, writeFileResponse,
    Resp.statusCode, Resp.fileBody]

/-- Witness for C1 at `fn = "test.txt"`, cached bytes `[1, 2, 3]`. -/
theorem c1_cache_hit_short_circuits_witness :
    (getFileHandler ⟨some (RedisReply.val [1, 2, 3]), OriginResult.ok [9], false⟩ "test.txt").response
      = writeFileResponse "test.txt" [1, 2, 3] ∧
    (getFileHandler ⟨some (RedisReply.val [1, 2, 3]), OriginResult.ok [9], false⟩ "test.txt").response.statusCode = 200 ∧
    (getFileHandler ⟨some (RedisReply.val [1, 2, 3]), OriginResult.ok [9], false⟩ "test.txt").response.fileBody = some [1, 2, 3] ∧
    (getFileHandler ⟨some (RedisReply.val [1, 2, 3]), OriginResult.ok [9], false⟩ "test.txt").originCalled = false :=
  c1_cache_hit_short_circuits [1, 2, 3] (OriginResult.ok [9]) false "test.txt" (by decide)

/-- C7: for every filename and data, the file response's
Content-Disposition header is exactly the string
`inline; filename="<name>"` with the literal filename interpolated
unmodified between the quotes — in particular a filename with an
embedded quote character is not escaped — and every file (200) response
of `getFileHandler` carries exactly that header. -/
theorem c7_disposition_literal (fn : String) (d : Bytes) :
    (writeFileResponse fn d).dispositionOf
      = some ("inline; filename=\"" ++ fn ++ "\"") ∧
    (writeFileResponse "a\"b.txt" d).dispositionOf
      = some "inline; filename=\"a\"b.txt\"" ∧
    (∀ env b, (getFileHandler env fn).response.fileBody = some b →
      (getFileHandler env fn).response.dispositionOf
        = some ("inline; filename=\"" ++ fn ++ "\"")) := by
  refine ⟨rfl, rfl, ?_⟩
  intro env b hb
  rcases handler_resp_cases env fn with ⟨s, sb, m, h⟩ | ⟨d2, h⟩
  · rw [h] at hb
    simp [Resp.fileBody] at hb
  · rw [h]
    rfl

/-- Witness for C7: the handler-level conjunct at a concrete cache-hit
request. -/
theorem c7_disposition_literal_witness :
    (getFileHandler ⟨some (RedisReply.val [1]), OriginResult.ok [2], false⟩ "report.pdf").response.dispositionOf
      = some "inline; filename=\"report.pdf\"" :=
  (c7_disposition_literal "report.pdf" []).2.2
    ⟨some (RedisReply.val [1]), OriginResult.ok [2], false⟩ [1] (by decide)

/-- C8: a request with empty filename path value yields HTTP 400 with the
JSON envelope `success=false`, `message="filename is required"`, and no
cache or origin backend call is made (and no background population is
spawned), for every backend behaviour. -/
theorem c8_empty_filename_rejected (env : Env) :
    getFileHandler env "" =
      { response := Resp.json 400 false "filename is required"
        cacheCalled := false
        cacheErrorLogged := false
        originCalled := false
        bgCacheSet := none } ∧
    (getFileHandler env "").response.statusCode = 400 := by
  constructor
  · simp [getFileHandler]
  · simp [getFileHandler, Resp.statusCode]

/-- C10: `ObjectExists` maps every `HeadObject` failure — whatever the
error — to `(false, nil)`: indistinguishable from a missing object,
with no error reported to the caller. -/
theorem c10_objectExists_swallows_errors (m m' : String) :
    ObjectExists (HeadResult.err m) = (false, none) ∧
    ObjectExists (HeadResult.err m) = ObjectExists (HeadResult.err m') ∧
    ObjectExists HeadResult.ok = (true, none) := by
  exact ⟨rfl, rfl, rfl⟩

/-- C3: a cache-lookup error (any `Get` error other than the explicit
`redis.Nil` miss) is logged, treated exactly as a miss (the response,
origin contact, and background population are identical to a genuine
miss with the same origin behaviour), and the origin fetch proceeds;
when the origin has the data the request succeeds with 200 and the
origin's bytes, so the cache error is never visible in the response. -/
theorem c3_cache_error_falls_through (m : String) (origin : OriginResult)
    (dead : Bool) (fn : String) (hfn : fn ≠ "") :
    (getFileHandler ⟨some (RedisReply.errReply m), origin, dead⟩ fn).cacheErrorLogged = true ∧
    (getFileHandler ⟨some (RedisReply.errReply m), origin, dead⟩ fn).originCalled = true ∧
    (getFileHandler ⟨some (RedisReply.errReply m), origin, dead⟩ fn).response
      = (getFileHandler ⟨some RedisReply.nilReply, origin, dead⟩ fn).response ∧
    (getFileHandler ⟨some (RedisReply.errReply m), origin, dead⟩ fn).bgCacheSet
      = (getFileHandler ⟨some RedisReply.nilReply, origin, dead⟩ fn).bgCacheSet ∧
    (∀ b, origin = OriginResult.ok b →
      (getFileHandler ⟨some (RedisReply.errReply m), origin, dead⟩ fn).response
        = writeFileResponse fn b ∧
      (getFileHandler ⟨some (RedisReply.errReply m), origin, dead⟩ fn).response.statusCode = 200) := by
  refine ⟨?_, ?_, ?_, ?_, ?_⟩
  · simp only [getFileHandler, if_neg hfn, redisCacheGet]
    cases origin <;> simp [originStep]
  · simp only [getFileHandler, if_neg hfn, redisCacheGet]
    cases origin <;> simp [originStep]
  · simp only [getFileHandler, if_neg hfn, redisCacheGet]
    cases origin <;> simp [originStep]
  · simp only [getFileHandler, if_neg hfn, redisCacheGet]
    cases origin <;> simp [originStep]
  · rintro b rfl
    constructor
    · simp [getFileHandler, hfn, redisCacheGet, originStep]
    · simp [getFileHandler, hfn, redisCacheGet, originStep, writeFileResponse,
        Resp.statusCode]

/-- Witness for C3 at `fn = "test.txt"`, cache error `"conn refused"`,
origin holding `[4, 5]`. -/
theorem c3_cache_error_falls_through_witness :
    (getFileHandler ⟨some (RedisReply.errReply "conn refused"), OriginResult.ok [4, 5], false⟩ "test.txt").cacheErrorLogged = true ∧
    (getFileHandler ⟨some (RedisReply.errReply "conn refused"), OriginResult.ok [4, 5], false⟩ "test.txt").originCalled = true ∧
    (getFileHandler ⟨some (RedisReply.errReply "conn refused"), OriginResult.ok [4, 5], false⟩ "test.txt").response
      = (getFileHandler ⟨some RedisReply.nilReply, OriginResult.ok [4, 5], false⟩ "test.txt").response ∧
    (getFileHandler ⟨some (RedisReply.errReply "conn refused"), OriginResult.ok [4, 5], false⟩ "test.txt").bgCacheSet
      = (getFileHandler ⟨some RedisReply.nilReply, OriginResult.ok [4, 5], false⟩ "test.txt").bgCacheSet ∧
    (∀ b, OriginResult.ok [4, 5] = OriginResult.ok b →
      (getFileHandler ⟨some (RedisReply.errReply "conn refused"), OriginResult.ok [4, 5], false⟩ "test.txt").response
        = writeFileResponse "test.txt" b ∧
      (getFileHandler ⟨some (RedisReply.errReply "conn refused"), OriginResult.ok [4, 5], false⟩ "test.txt").response.statusCode = 200) :=
  c3_cache_error_falls_through "conn refused" (OriginResult.ok [4, 5]) false "test.txt" (by decide)

/-- The cache reply is not a hit (a miss, an error, or no cache
configured): exactly the situations in which `getFileHandler` reaches
the origin fetch. -/
def cacheMisses : Option RedisReply → Bool
  | some (RedisReply.val _) => false
  | _ => true

/-- C4: when the handler reaches the origin fetch and it fails, the error
is classified into exactly one outcome with fixed priority: 504
`Request timeout` if the request context reports deadline exceeded
(checked first, from the context's own state), else 404
`File not found` if `isNotFoundError` holds of the error message, else
500 `Failed to retrieve file`; and `isNotFoundError` is exactly the
substring test for `NoSuchKey` or `not found`. -/
theorem c4_origin_error_classification (cache : Option RedisReply) (m : String)
    (dead : Bool) (fn : String) (hfn : fn ≠ "") (hc : cacheMisses cache = true) :
    (getFileHandler ⟨cache, OriginResult.err m, dead⟩ fn).response
      = (if dead then Resp.json 504 false "Request timeout"
         else if isNotFoundError m then Resp.json 404 false "File not found"
         else Resp.json 500 false "Failed to retrieve file") ∧
    (getFileHandler ⟨cache, OriginResult.err m, dead⟩ fn).response.statusCode
      = (if dead then 504 else if isNotFoundError m then 404 else 500) ∧
    isNotFoundError m = (strContains m "NoSuchKey" || strContains m "not found") := by
  have hresp : (getFileHandler ⟨cache, OriginResult.err m, dead⟩ fn).response
      = (if dead then Resp.json 504 false "Request timeout"
         else if isNotFoundError m then Resp.json 404 false "File not found"
         else Resp.json 500 false "Failed to retrieve file") := by
    match cache, hc with
    | none, _ => simp [getFileHandler, hfn, originStep]
    | some RedisReply.nilReply, _ => simp [getFileHandler, hfn, redisCacheGet, originStep]
    | some (RedisReply.errReply e), _ => simp [getFileHandler, hfn, redisCacheGet, originStep]
  refine ⟨hresp, ?_, rfl⟩
  rw [hresp]
  by_cases hd : dead <;> by_cases hn : isNotFoundError m <;>
    simp [hd, hn, Resp.statusCode]

/-- Witness for C4: cache absent, a `NoSuchKey` origin error with the
deadline not exceeded classifies as 404. -/
theorem c4_origin_error_classification_witness :
    (getFileHandler ⟨none, OriginResult.err "failed to get object x: NoSuchKey", false⟩ "x").response
      = (if false then Resp.json 504 false "Request timeout"
         else if isNotFoundError "failed to get object x: NoSuchKey" then Resp.json 404 false "File not found"
         else Resp.json 500 false "Failed to retrieve file") ∧
    (getFileHandler ⟨none, OriginResult.err "failed to get object x: NoSuchKey", false⟩ "x").response.statusCode
      = (if false then 504 else if isNotFoundError "failed to get object x: NoSuchKey" then 404 else 500) ∧
    isNotFoundError "failed to get object x: NoSuchKey"
      = (strContains "failed to get object x: NoSuchKey" "NoSuchKey"
          || strContains "failed to get object x: NoSuchKey" "not found") :=
  c4_origin_error_classification none "failed to get object x: NoSuchKey" false "x"
    (by decide) (by decide)

/-- C5: the health probe is overall Unhealthy (HTTP 503 with
`success=false`) exactly when the origin probe fails; a cache ping
failure only marks the `redis` field unhealthy while the overall result
stays 200/Healthy, and with no cache configured the `redis` field is
`disabled` and the overall result still depends only on the origin. -/
theorem c5_health_origin_decides (e : HealthEnv) :
    ((healthHandler e).httpStatus = 503 ∧ (healthHandler e).success = false
      ↔ e.originErr.isSome = true) ∧
    ((healthHandler e).httpStatus = 200 ∧ (healthHandler e).success = true
      ↔ e.originErr = none) ∧
    ((healthHandler e).statusField = "unhealthy" ↔ e.originErr.isSome = true) ∧
    (∀ m, e.cacheConfigured = true → e.cachePingErr = some m →
      (healthHandler e).redisField = "unhealthy: " ++ m) ∧
    (e.cacheConfigured = false → (healthHandler e).redisField = "disabled") := by
  obtain ⟨cc, cp, oe⟩ := e
  cases oe <;> cases cc <;> cases cp <;>
    simp [healthHandler]

/-- Witness for C5: cache configured but its ping failing, origin
healthy — overall stays 200/Healthy with the cache reported
unhealthy. -/
theorem c5_health_origin_decides_witness :
    ((healthHandler ⟨true, some "ping failed", none⟩).httpStatus = 200 ∧
      (healthHandler ⟨true, some "ping failed", none⟩).success = true) ∧
    (healthHandler ⟨true, some "ping failed", none⟩).redisField = "unhealthy: " ++ "ping failed" :=
  ⟨(c5_health_origin_decides ⟨true, some "ping failed", none⟩).2.1.mpr rfl,
    (c5_health_origin_decides ⟨true, some "ping failed", none⟩).2.2.2.1 "ping failed" rfl rfl⟩

/-- C2: for a non-empty key present in the origin bucket but absent from
the cache store, the request returns the origin's stored bytes
unchanged (HTTP 200), the background population leaves the cache
holding exactly those bytes under the key, and a subsequent request is
served from the cache with identical bytes and no origin contact. -/
theorem c2_origin_roundtrip_through_cache (store bucket : Store) (b : Bytes)
    (dead : Bool) (fn : String) (hfn : fn ≠ "") (hmiss : store fn = none)
    (hb : bucket fn = some b) :
    (processRequest store true (getObjectOf bucket fn) dead none fn).1.response
      = writeFileResponse fn b ∧
    (processRequest store true (getObjectOf bucket fn) dead none fn).1.response.statusCode = 200 ∧
    (processRequest store true (getObjectOf bucket fn) dead none fn).1.response.fileBody = some b ∧
    (processRequest store true (getObjectOf bucket fn) dead none fn).1.originCalled = true ∧
    (processRequest store true (getObjectOf bucket fn) dead none fn).2 fn = some b ∧
    (processRequest ((processRequest store true (getObjectOf bucket fn) dead none fn).2)
        true (getObjectOf bucket fn) dead none fn).1.response = writeFileResponse fn b ∧
    (processRequest ((processRequest store true (getObjectOf bucket fn) dead none fn).2)
        true (getObjectOf bucket fn) dead none fn).1.response.fileBody = some b ∧
    (processRequest ((processRequest store true (getObjectOf bucket fn) dead none fn).2)
        true (getObjectOf bucket fn) dead none fn).1.originCalled = false := by
  have h1 : getObjectOf bucket fn = OriginResult.ok b := by
    simp [getObjectOf, hb]
  have h2 : redisReplyOf store fn = RedisReply.nilReply := by
    simp [redisReplyOf, hmiss]
  have hp : processRequest store true (getObjectOf bucket fn) dead none fn
      = ({ response := writeFileResponse fn b
           cacheCalled := true
           cacheErrorLogged := false
           originCalled := true
           bgCacheSet := some (fn, b) }, redisSetEffect store fn b) := by
    simp [processRequest, h1, h2, getFileHandler, if_neg hfn, redisCacheGet,
      originStep, backgroundPopulate]
  have hs2 : redisReplyOf (redisSetEffect store fn b) fn = RedisReply.val b := by
    simp [redisReplyOf, redisSetEffect]
  have hq : processRequest (redisSetEffect store fn b) true (getObjectOf bucket fn) dead none fn
      = ({ response := writeFileResponse fn b
           cacheCalled := true
           cacheErrorLogged := false
           originCalled := false
           bgCacheSet := none }, redisSetEffect store fn b) := by
    simp [processRequest, h1, hs2, getFileHandler, if_neg hfn, redisCacheGet]
  rw [hp, hq]
  simp [writeFileResponse, Resp.statusCode, Resp.fileBody, redisSetEffect]

/-- Witness for C2 at `fn = "test.txt"`, an empty cache and a bucket
holding `[7, 8]` under the key. -/
theorem c2_origin_roundtrip_through_cache_witness :
    (processRequest (fun _ => none) true
        (getObjectOf (fun k => if k = "test.txt" then some [7, 8] else none) "test.txt")
        false none "test.txt").1.response = writeFileResponse "test.txt" [7, 8] ∧
    (processRequest (fun _ => none) true
        (getObjectOf (fun k => if k = "test.txt" then some [7, 8] else none) "test.txt")
        false none "test.txt").1.response.statusCode = 200 ∧
    (processRequest (fun _ => none) true
        (getObjectOf (fun k => if k = "test.txt" then some [7, 8] else none) "test.txt")
        false none "test.txt").1.response.fileBody = some [7, 8] ∧
    (processRequest (fun _ => none) true
        (getObjectOf (fun k => if k = "test.txt" then some [7, 8] else none) "test.txt")
        false none "test.txt").1.originCalled = true ∧
    (processRequest (fun _ => none) true
        (getObjectOf (fun k => if k = "test.txt" then some [7, 8] else none) "test.txt")
        false none "test.txt").2 "test.txt" = some [7, 8] ∧
    (processRequest ((processRequest (fun _ => none) true
        (getObjectOf (fun k => if k = "test.txt" then some [7, 8] else none) "test.txt")
        false none "test.txt").2) true
        (getObjectOf (fun k => if k = "test.txt" then some [7, 8] else none) "test.txt")
        false none "test.txt").1.response = writeFileResponse "test.txt" [7, 8] ∧
    (processRequest ((processRequest (fun _ => none) true
        (getObjectOf (fun k => if k = "test.txt" then some [7, 8] else none) "test.txt")
        false none "test.txt").2) true
        (getObjectOf (fun k => if k = "test.txt" then some [7, 8] else none) "test.txt")
        false none "test.txt").1.response.fileBody = some [7, 8] ∧
    (processRequest ((processRequest (fun _ => none) true
        (getObjectOf (fun k => if k = "test.txt" then some [7, 8] else none) "test.txt")
        false none "test.txt").2) true
        (getObjectOf (fun k => if k = "test.txt" then some [7, 8] else none) "test.txt")
        false none "test.txt").1.originCalled = false :=
  c2_origin_roundtrip_through_cache (fun _ => none)
    (fun k => if k = "test.txt" then some [7, 8] else none) [7, 8] false "test.txt"
    (by decide) rfl (by simp)

/-- C6: the Content-Type of a file response is derived from the
filename's extension via the standard (Go builtin) extension-to-MIME
mapping, equals `application/octet-stream` exactly when that mapping
yields nothing for the extension, and maps the spec's three examples as
stated. -/
theorem c6_content_type_mapping (fn : String) (d : Bytes) :
    ((writeFileResponse fn d).contentTypeOf = "application/octet-stream"
      ↔ typeByExtension (goExt fn) = "") ∧
    (typeByExtension (goExt fn) ≠ "" →
      (writeFileResponse fn d).contentTypeOf = typeByExtension (goExt fn)) ∧
    (writeFileResponse "document.pdf" d).contentTypeOf = "application/pdf" ∧
    (writeFileResponse "page.html" d).contentTypeOf = "text/html; charset=utf-8" ∧
    (writeFileResponse "file.unknownext123" d).contentTypeOf = "application/octet-stream" := by
  refine ⟨?_, ?_, rfl, rfl, rfl⟩
  · unfold writeFileResponse Resp.contentTypeOf
    by_cases h : typeByExtension (goExt fn) = ""
    · simp [h]
    · simp only [if_neg h]
      constructor
      · intro hc
        exact absurd hc (typeByExtension_ne_octet _)
      · intro hc
        exact absurd hc h
  · intro h
    unfold writeFileResponse Resp.contentTypeOf
    simp [if_neg h]

/-- Witness for C6 at `fn = "page.html"`, whose extension is known to the
mapping. -/
theorem c6_content_type_mapping_witness :
    (writeFileResponse "page.html" []).contentTypeOf
      = typeByExtension (goExt "page.html") :=
  (c6_content_type_mapping "page.html" []).2.1 (by decide)

/-- C9: after a successful origin fetch, the handler's entire output —
in particular the 200 response carrying the fetched bytes — is the same
whatever the outcome of the background cache population: a population
failure never alters the response already produced, which is the file
response with the origin's bytes. -/
theorem c9_population_never_alters_response (store : Store) (cc : Bool)
    (dead : Bool) (fn : String) (b : Bytes) (e1 e2 : Option String)
    (hfn : fn ≠ "") (hmiss : cc = true → store fn = none) :
    (processRequest store cc (OriginResult.ok b) dead e1 fn).1
      = (processRequest store cc (OriginResult.ok b) dead e2 fn).1 ∧
    (processRequest store cc (OriginResult.ok b) dead e1 fn).1.response
      = writeFileResponse fn b ∧
    (processRequest store cc (OriginResult.ok b) dead e1 fn).1.response.statusCode = 200 ∧
    (processRequest store cc (OriginResult.ok b) dead e1 fn).1.response.fileBody = some b ∧
    (processRequest store cc (OriginResult.ok b) dead e1 fn).1.originCalled = true := by
  have hfst : ∀ e : Option String,
      (processRequest store cc (OriginResult.ok b) dead e fn).1
        = getFileHandler
            { cache := if cc then some (redisReplyOf store fn) else none
              origin := OriginResult.ok b
              ctxDeadlineExceeded := dead } fn := by
    intro e
    unfold processRequest
    split <;> (dsimp only; split <;> rfl)
  have hout : getFileHandler
      { cache := if cc then some (redisReplyOf store fn) else none
        origin := OriginResult.ok b
        ctxDeadlineExceeded := dead } fn
      = { response := writeFileResponse fn b
          cacheCalled := cc
          cacheErrorLogged := false
          originCalled := true
          bgCacheSet := if cc then some (fn, b) else none } := by
    cases cc with
    | false => simp [getFileHandler, if_neg hfn, originStep]
    | true =>
      have hm : redisReplyOf store fn = RedisReply.nilReply := by
        simp [redisReplyOf, hmiss rfl]
      simp [getFileHandler, if_neg hfn, hm, redisCacheGet, originStep]
  refine ⟨by rw [hfst e1, hfst e2], ?_, ?_, ?_, ?_⟩ <;>
    rw [hfst e1, hout] <;>
    simp [writeFileResponse, Resp.statusCode, Resp.fileBody]

/-- Witness for C9 at `fn = "test.txt"`: a failing population
(`some "set failed"`) versus a succeeding one (`none`) leaves the
handler output unchanged. -/
theorem c9_population_never_alters_response_witness :
    (processRequest (fun _ => none) true (OriginResult.ok [9]) false (some "set failed") "test.txt").1
      = (processRequest (fun _ => none) true (OriginResult.ok [9]) false none "test.txt").1 ∧
    (processRequest (fun _ => none) true (OriginResult.ok [9]) false (some "set failed") "test.txt").1.response
      = writeFileResponse "test.txt" [9] ∧
    (processRequest (fun _ => none) true (OriginResult.ok [9]) false (some "set failed") "test.txt").1.response.statusCode = 200 ∧
    (processRequest (fun _ => none) true (OriginResult.ok [9]) false (some "set failed") "test.txt").1.response.fileBody = some [9] ∧
    (processRequest (fun _ => none) true (OriginResult.ok [9]) false (some "set failed") "test.txt").1.originCalled = true :=
  c9_population_never_alters_response (fun _ => none) true false "test.txt" [9]
    (some "set failed") none (by decide) (fun _ => rfl)
